import Mathlib

/-!
Verification of the disaster-environment simulation core
(`disaster_environment.py`, `sensor_agent.py`).

Real-valued sensor readings are modelled as rationals; the ambient random
source is modelled by passing the drawn values explicitly (coordinates,
initial readings, per-tick perturbations, the stimulus draw, and the choices
of the synthetic-injection path).  Python's `ZeroDivisionError` in the
severity computation is modelled by an `Option` result (`none` = raise).
-/

namespace DisasterEnv

/-- Types of disasters that can occur (`DisasterType` enum). -/
inductive DisasterType where
  | FLOOD
  | EARTHQUAKE
  | FIRE
  | NONE
deriving DecidableEq, Repr

/-- Severity levels for disasters (`SeverityLevel` enum). -/
inductive SeverityLevel where
  | NONE
  | LOW
  | MEDIUM
  | HIGH
  | CRITICAL
deriving DecidableEq, Repr

/-- The numeric value of a `SeverityLevel` member (0..4), as in the enum. -/
def SeverityLevel.value : SeverityLevel → Nat
  | .NONE => 0
  | .LOW => 1
  | .MEDIUM => 2
  | .HIGH => 3
  | .CRITICAL => 4

/-- A geographic location (`Location`): coordinates and a name. -/
structure Location where
  x : ℚ
  y : ℚ
  name : String
deriving DecidableEq, Repr

/-- A disaster event (`DisasterEvent`): type, severity, location, and the
`active` flag (always `true` at creation; the timestamp is not modelled). -/
structure DisasterEvent where
  disaster_type : DisasterType
  severity : SeverityLevel
  location : Location
  active : Bool := true
deriving DecidableEq, Repr

/-- Environmental conditions at a location (`EnvironmentalConditions`). -/
structure EnvironmentalConditions where
  location : Location
  temperature : ℚ
  humidity : ℚ
  wind_speed : ℚ
  water_level : ℚ
  smoke_level : ℚ
  seismic_activity : ℚ
deriving DecidableEq, Repr

/-- The six random draws consumed by one `EnvironmentalConditions` update
(`random.uniform` results), passed in explicitly. -/
structure Perturbation where
  dTemperature : ℚ
  dHumidity : ℚ
  dWindSpeed : ℚ
  dWaterLevel : ℚ
  dSmokeLevel : ℚ
  dSeismic : ℚ
deriving DecidableEq, Repr

/-- Model of `EnvironmentalConditions.update`: add the drawn perturbation to each
field, then clamp every field to its global bound with `max 0 (min hi v)`. -/
def EnvironmentalConditions.update (c : EnvironmentalConditions)
    (d : Perturbation) : EnvironmentalConditions :=
  { location := c.location
    temperature := max 0 (min 50 (c.temperature + d.dTemperature))
    humidity := max 0 (min 100 (c.humidity + d.dHumidity))
    wind_speed := max 0 (min 100 (c.wind_speed + d.dWindSpeed))
    water_level := max 0 (min 200 (c.water_level + d.dWaterLevel))
    smoke_level := max 0 (min 500 (c.smoke_level + d.dSmokeLevel))
    seismic_activity := max 0 (min 10 (c.seismic_activity + d.dSeismic)) }

/-- Model of `DisasterEnvironment._calculate_severity`.  Returns `Option.none` exactly
when the Python code raises `ZeroDivisionError` (ratio denominator zero). -/
def calculate_severity (value threshold max_value : ℚ) :
    Option SeverityLevel :=
  if value < threshold then some SeverityLevel.NONE
  else if max_value - threshold = 0 then none
  else if (value - threshold) / (max_value - threshold) < 1/4 then
    some SeverityLevel.LOW
  else if (value - threshold) / (max_value - threshold) < 1/2 then
    some SeverityLevel.MEDIUM
  else if (value - threshold) / (max_value - threshold) < 3/4 then
    some SeverityLevel.HIGH
  else some SeverityLevel.CRITICAL

/-- The six initial random draws consumed by `EnvironmentalConditions.__init__`
(one `random.uniform` per field), passed in explicitly. -/
structure InitialDraws where
  iTemperature : ℚ
  iHumidity : ℚ
  iWindSpeed : ℚ
  iWaterLevel : ℚ
  iSmokeLevel : ℚ
  iSeismic : ℚ
deriving DecidableEq, Repr

/-- Model of `EnvironmentalConditions.__init__`: each field takes its drawn value. -/
def EnvironmentalConditions.init (loc : Location) (d : InitialDraws) :
    EnvironmentalConditions :=
  { location := loc
    temperature := d.iTemperature
    humidity := d.iHumidity
    wind_speed := d.iWindSpeed
    water_level := d.iWaterLevel
    smoke_level := d.iSmokeLevel
    seismic_activity := d.iSeismic }

/-- The built-in location-name pool of `_generate_locations`. -/
def location_names : List String :=
  ["Downtown", "Harbor District", "Industrial Zone",
   "Residential Area", "Hospital District", "Airport",
   "Shopping Center", "University Campus", "Power Plant",
   "Water Treatment Facility"]

/-- Model of `DisasterEnvironment._generate_locations`: one location per index
`i < min num (length location_names)`, with drawn coordinates. -/
def generate_locations (num : Nat) (coordDraws : Nat → ℚ × ℚ) :
    List Location :=
  (List.range (min num location_names.length)).map fun i =>
    { x := (coordDraws i).1, y := (coordDraws i).2
      name := location_names.getD i "" }

/-- The state of a `DisasterEnvironment` instance. -/
structure DisasterEnvironment where
  locations : List Location
  conditions : List (Location × EnvironmentalConditions)
  active_disasters : List DisasterEvent
  event_history : List DisasterEvent
deriving DecidableEq, Repr

/-- Model of `DisasterEnvironment.__init__`: generate the locations, give each its own
freshly initialized conditions record, and start with empty event lists.
There is no validation: any `num_locations` (including 0) is accepted. -/
def mkDisasterEnvironment (num_locations : Nat) (coordDraws : Nat → ℚ × ℚ)
    (condDraws : Nat → InitialDraws) : DisasterEnvironment :=
  let locs := generate_locations num_locations coordDraws
  { locations := locs
    conditions := (locs.enum).map fun p =>
      (p.2, EnvironmentalConditions.init p.2 (condDraws p.1))
    active_disasters := []
    event_history := [] }

/-- Model of `DisasterEnvironment.update_conditions`: update every location's record
(in registry order), feeding each the perturbation drawn for it. -/
def update_conditions (env : DisasterEnvironment)
    (draws : Nat → Perturbation) : DisasterEnvironment :=
  { env with conditions := (env.conditions.enum).map fun p =>
      (p.2.1, p.2.2.update (draws p.1)) }

/-- Model of `DisasterEnvironment.detect_disasters`: scan the conditions in registry
order, appending events for each satisfied rule (flood, fire, earthquake) to
`new_disasters`, then extend both `active_disasters` and `event_history`.
Returns the updated environment together with `new_disasters`.  At each
callsite of `_calculate_severity` the denominator is a nonzero constant, so
`getD` never supplies its default (see `severity_isSome`).  `detectStep` is
the body of the loop over the conditions (the three sequential rule checks
appending to `new_disasters`); `detect_disasters` folds it. -/
def detectStep (acc : List DisasterEvent)
    (p : Location × EnvironmentalConditions) : List DisasterEvent :=
  let acc1 := if p.2.water_level > 150 then
    acc ++ [{ disaster_type := DisasterType.FLOOD
              severity := (calculate_severity p.2.water_level 150 200).getD .NONE
              location := p.1 }] else acc
  let acc2 := if p.2.smoke_level > 300 then
    acc1 ++ [{ disaster_type := DisasterType.FIRE
               severity := (calculate_severity p.2.smoke_level 300 500).getD .NONE
               location := p.1 }] else acc1
  if p.2.seismic_activity > 5 then
    acc2 ++ [{ disaster_type := DisasterType.EARTHQUAKE
               severity := (calculate_severity p.2.seismic_activity 5 10).getD .NONE
               location := p.1 }] else acc2

def detect_disasters (env : DisasterEnvironment) :
    DisasterEnvironment × List DisasterEvent :=
  let new_disasters := env.conditions.foldl detectStep []
  ({ env with
      active_disasters := env.active_disasters ++ new_disasters
      event_history := env.event_history ++ new_disasters },
   new_disasters)

/-- The random choices consumed by `simulate_random_disaster`
(`random.choice` on the type list, the severity list, and `self.locations`). -/
structure InjectionDraws where
  typeIdx : Nat
  sevIdx : Nat
  locIdx : Nat
deriving DecidableEq, Repr

/-- Model of `DisasterEnvironment.simulate_random_disaster`: build an event from the
drawn type/severity/location choices and append it to both lists. -/
def simulate_random_disaster (env : DisasterEnvironment)
    (d : InjectionDraws) : DisasterEnvironment × DisasterEvent :=
  let dt := [DisasterType.FLOOD, DisasterType.EARTHQUAKE,
             DisasterType.FIRE].getD d.typeIdx DisasterType.FLOOD
  let sev := [SeverityLevel.LOW, SeverityLevel.MEDIUM,
              SeverityLevel.HIGH, SeverityLevel.CRITICAL].getD d.sevIdx
              SeverityLevel.LOW
  let loc := env.locations.getD d.locIdx { x := 0, y := 0, name := "" }
  let event : DisasterEvent :=
    { disaster_type := dt, severity := sev, location := loc }
  ({ env with
      active_disasters := env.active_disasters ++ [event]
      event_history := env.event_history ++ [event] },
   event)

/-- The state a `SensorAgent` holds after `__init__` (`jid`/`password`
handling of the external runtime is not modelled beyond storing the jid). -/
structure SensorAgent where
  jid : String
  num_locations : Nat
  monitoring_interval : ℚ
  coordinator_jid : Option String
  simulate_disasters : Bool
  environment : DisasterEnvironment
  detected_events : List DisasterEvent

/-- Model of `SensorAgent.__init__`: store the configuration and build the
environment.  There is no validation of `num_locations` or
`monitoring_interval`; any values (including non-positive intervals) are
accepted and stored. -/
def mkSensorAgent (jid : String) (num_locations : Nat)
    (monitoring_interval : ℚ) (coordinator_jid : Option String)
    (simulate_disasters : Bool) (coordDraws : Nat → ℚ × ℚ)
    (condDraws : Nat → InitialDraws) : SensorAgent :=
  { jid := jid
    num_locations := num_locations
    monitoring_interval := monitoring_interval
    coordinator_jid := coordinator_jid
    simulate_disasters := simulate_disasters
    environment := mkDisasterEnvironment num_locations coordDraws condDraws
    detected_events := [] }

/-- One pass of `EnvironmentMonitoringBehaviour.run`, stripped of logging and
reporting: update all conditions, detect, then (only when
`simulate_disasters` is set and fewer than 3 disasters are active) draw the
stimulus and possibly inject a synthetic event.  Returns the final
environment, the detected events, and the injected event if any. -/
def monitoringRun (env : DisasterEnvironment) (simulate_disasters : Bool)
    (draws : Nat → Perturbation) (stimulusDraw : ℚ) (inj : InjectionDraws) :
    DisasterEnvironment × List DisasterEvent × Option DisasterEvent :=
  let env1 := update_conditions env draws
  let det := detect_disasters env1
  if simulate_disasters = true ∧ det.1.active_disasters.length < 3 then
    if stimulusDraw < 1/10 then
      let sim := simulate_random_disaster det.1 inj
      (sim.1, det.2, some sim.2)
    else (det.1, det.2, none)
  else (det.1, det.2, none)

/-- The operations that touch a `DisasterEnvironment` (and hence its Event
Store), each carrying the random draws it consumes. -/
inductive StoreOp where
  | update (draws : Nat → Perturbation)
  | detect
  | inject (d : InjectionDraws)

/-- Apply one operation to the environment. -/
def applyOp (env : DisasterEnvironment) : StoreOp → DisasterEnvironment
  | .update draws => update_conditions env draws
  | .detect => (detect_disasters env).1
  | .inject d => (simulate_random_disaster env d).1

/-- Apply a sequence of operations. -/
def applyOps (env : DisasterEnvironment) (ops : List StoreOp) :
    DisasterEnvironment :=
  ops.foldl applyOp env

/-- The clamp-range invariant on a conditions record (§3 of the design). -/
def inClampRange (c : EnvironmentalConditions) : Prop :=
  0 ≤ c.temperature ∧ c.temperature ≤ 50 ∧
  0 ≤ c.humidity ∧ c.humidity ≤ 100 ∧
  0 ≤ c.wind_speed ∧ c.wind_speed ≤ 100 ∧
  0 ≤ c.water_level ∧ c.water_level ≤ 200 ∧
  0 ≤ c.smoke_level ∧ c.smoke_level ≤ 500 ∧
  0 ≤ c.seismic_activity ∧ c.seismic_activity ≤ 10

instance (c : EnvironmentalConditions) : Decidable (inClampRange c) := by
  unfold inClampRange; infer_instance

/-! ## Helper lemmas -/

/-- A single update lands every field inside its clamp range. -/
lemma update_mem_clamp (c : EnvironmentalConditions) (d : Perturbation) :
    inClampRange (c.update d) := by
  dsimp [EnvironmentalConditions.update, inClampRange]
  exact ⟨le_max_left _ _, max_le (by norm_num) (min_le_left _ _),
    le_max_left _ _, max_le (by norm_num) (min_le_left _ _),
    le_max_left _ _, max_le (by norm_num) (min_le_left _ _),
    le_max_left _ _, max_le (by norm_num) (min_le_left _ _),
    le_max_left _ _, max_le (by norm_num) (min_le_left _ _),
    le_max_left _ _, max_le (by norm_num) (min_le_left _ _)⟩

/-- The severity computation succeeds whenever the ratio denominator is
nonzero. -/
lemma severity_isSome (v t m : ℚ) (h : m ≠ t) :
    (calculate_severity v t m).isSome := by
  unfold calculate_severity
  have hne : ¬ (m - t = 0) := sub_ne_zero_of_ne h
  split_ifs <;> simp_all

/-- The per-location event list exactly as the spec describes detection:
one event per satisfied rule, in the order flood (water_level > 150), fire
(smoke_level > 300), earthquake (seismic_activity > 5.0), each graded with
the rule's (threshold, max) pair. -/
def detectRuleEventsSpec (p : Location × EnvironmentalConditions) :
    List DisasterEvent :=
  (if p.2.water_level > 150 then
    [{ disaster_type := DisasterType.FLOOD
       severity := (calculate_severity p.2.water_level 150 200).getD .NONE
       location := p.1 }] else [])
  ++ (if p.2.smoke_level > 300 then
    [{ disaster_type := DisasterType.FIRE
       severity := (calculate_severity p.2.smoke_level 300 500).getD .NONE
       location := p.1 }] else [])
  ++ (if p.2.seismic_activity > 5 then
    [{ disaster_type := DisasterType.EARTHQUAKE
       severity := (calculate_severity p.2.seismic_activity 5 10).getD .NONE
       location := p.1 }] else [])

/-- One loop iteration appends exactly the spec-described rule events. -/
lemma detectStep_eq (acc : List DisasterEvent)
    (p : Location × EnvironmentalConditions) :
    detectStep acc p = acc ++ detectRuleEventsSpec p := by
  unfold detectStep detectRuleEventsSpec
  split_ifs <;> simp

/-- Folding the detection loop accumulates the rule events of every location
in registry order. -/
lemma foldl_detectStep (conds : List (Location × EnvironmentalConditions))
    (acc : List DisasterEvent) :
    conds.foldl detectStep acc = acc ++ conds.flatMap detectRuleEventsSpec := by
  induction conds generalizing acc with
  | nil => simp
  | cons q rest ih =>
    rw [List.foldl_cons, detectStep_eq, ih, List.flatMap_cons, List.append_assoc]

end DisasterEnv

namespace DisasterEnv

/-- C1: `detect_disasters` produces exactly one event per satisfied rule per
location — flood when water_level > 150, fire when smoke_level > 300,
earthquake when seismic_activity > 5.0 (strict comparisons, so a location
may yield up to three events) — in detection order (locations in registry
order, and per location flood, fire, earthquake), and appends every
returned event to both the active list and the history list. -/
theorem detect_disasters_rule_events (env : DisasterEnvironment) :
    (detect_disasters env).1.active_disasters
        = env.active_disasters ++ (detect_disasters env).2 ∧
    (detect_disasters env).1.event_history
        = env.event_history ++ (detect_disasters env).2 ∧
    (detect_disasters env).2 = env.conditions.flatMap detectRuleEventsSpec := by
  refine ⟨rfl, rfl, ?_⟩
  show env.conditions.foldl detectStep [] = _
  simpa using foldl_detectStep env.conditions []

/-- C2: severity bucketing — `none` below threshold; otherwise, with
ratio = (value − threshold) / (max_value − threshold): ratio < 1/4 → low,
1/4 ≤ ratio < 1/2 → medium, 1/2 ≤ ratio < 3/4 → high, 3/4 ≤ ratio →
critical (so the exact boundaries 1/4, 1/2, 3/4 land in the upper bucket). -/
theorem calculate_severity_bucketing (v t m : ℚ) :
    (v < t → calculate_severity v t m = some SeverityLevel.NONE) ∧
    (m ≠ t → t ≤ v →
      ((v - t) / (m - t) < 1/4 →
        calculate_severity v t m = some SeverityLevel.LOW) ∧
      (1/4 ≤ (v - t) / (m - t) → (v - t) / (m - t) < 1/2 →
        calculate_severity v t m = some SeverityLevel.MEDIUM) ∧
      (1/2 ≤ (v - t) / (m - t) → (v - t) / (m - t) < 3/4 →
        calculate_severity v t m = some SeverityLevel.HIGH) ∧
      (3/4 ≤ (v - t) / (m - t) →
        calculate_severity v t m = some SeverityLevel.CRITICAL)) := by
  constructor
  · intro hv; simp [calculate_severity, hv]
  · intro hm hv
    have h1 : ¬ v < t := not_lt.mpr hv
    have h2 : ¬ (m - t = 0) := sub_ne_zero_of_ne hm
    refine ⟨fun hr1 => ?_, fun hr1 hr2 => ?_, fun hr1 hr2 => ?_,
      fun hr1 => ?_⟩ <;>
      (unfold calculate_severity;
       split_ifs <;>
         first
           | rfl
           | (exact absurd (by assumption : m - t = 0) h2)
           | linarith)

/-- Witness for C2 at the spec's concrete case: smoke 350 with rule
(300, 500) has ratio exactly 1/4 and is graded medium. -/
theorem calculate_severity_bucketing_witness :
    calculate_severity 350 300 500 = some SeverityLevel.MEDIUM :=
  ((calculate_severity_bucketing 350 300 500).2 (by norm_num)
    (by norm_num)).2.1 (by norm_num) (by norm_num)

/-- C3: after every update (any starting record, any drawn perturbations,
any nonempty sequence of calls), every field lies within its clamp range. -/
theorem update_keeps_clamp_ranges (c : EnvironmentalConditions)
    (ds : List Perturbation) (h : ds ≠ []) :
    inClampRange (ds.foldl EnvironmentalConditions.update c) := by
  induction ds generalizing c with
  | nil => exact absurd rfl h
  | cons d rest ih =>
    cases rest with
    | nil => simpa using update_mem_clamp c d
    | cons e rest2 =>
      rw [List.foldl_cons]
      exact ih (c.update d) (by simp)

/-- Witness for C3 on a concrete record and one update. -/
theorem update_keeps_clamp_ranges_witness :
    inClampRange (List.foldl EnvironmentalConditions.update
      ⟨⟨0, 0, "Downtown"⟩, 20, 50, 10, 50, 50, 1⟩
      [⟨100, 100, 100, 100, 100, 100⟩]) :=
  update_keeps_clamp_ranges _ _ (by simp)

/-- Counterexample for C4 as stated: at value = threshold = max_value = 0
the code divides by zero and raises `ZeroDivisionError` (modelled as
`Option.none`) instead of returning a SeverityLevel. -/
theorem calculate_severity_raises_at_equal_bounds :
    calculate_severity 0 0 0 = none := by norm_num [calculate_severity]

/-- C4 (amended): for every real value, threshold, and max_value with
max_value ≠ threshold, the severity computation returns a well-defined
SeverityLevel and never raises; values below threshold yield none, and any
value at or above max_value (with max_value > threshold) yields critical. -/
theorem calculate_severity_welldefined (v t m : ℚ) (hm : m ≠ t) :
    (calculate_severity v t m).isSome ∧
    (v < t → calculate_severity v t m = some SeverityLevel.NONE) ∧
    (t < m → m ≤ v → calculate_severity v t m = some SeverityLevel.CRITICAL) := by
  refine ⟨severity_isSome v t m hm, fun hv => by simp [calculate_severity, hv],
    fun htm hmv => ?_⟩
  have h1 : ¬ v < t := not_lt.mpr (le_trans (le_of_lt htm) hmv)
  have h2 : ¬ (m - t = 0) := sub_ne_zero_of_ne hm
  have hpos : (0:ℚ) < m - t := by linarith
  have hr : 1 ≤ (v - t) / (m - t) := (le_div_iff₀ hpos).mpr (by linarith)
  unfold calculate_severity
  split_ifs <;>
    first
      | rfl
      | (exact absurd (by assumption : m - t = 0) h2)
      | linarith

/-- Witness for C4 at the spec's concrete case: water 200 with rule
(150, 200) has ratio 1 and is graded critical. -/
theorem calculate_severity_welldefined_witness :
    calculate_severity 200 150 200 = some SeverityLevel.CRITICAL :=
  (calculate_severity_welldefined 200 150 200 (by norm_num)).2.2
    (by norm_num) (by norm_num)

/-- C5: for fixed threshold < max_value, severity is non-decreasing in the
value, in the ordinal order none=0 < low=1 < medium=2 < high=3 < critical=4. -/
theorem calculate_severity_monotone (t m v1 v2 : ℚ) (htm : t < m)
    (h12 : v1 ≤ v2) :
    ((calculate_severity v1 t m).getD SeverityLevel.NONE).value ≤
      ((calculate_severity v2 t m).getD SeverityLevel.NONE).value := by
  have h2 : ¬ (m - t = 0) := sub_ne_zero_of_ne (ne_of_gt htm)
  have hpos : (0:ℚ) < m - t := by linarith
  by_cases hv1 : v1 < t
  · simp only [calculate_severity, if_pos hv1]
    exact Nat.zero_le _
  · have hv2 : ¬ v2 < t := fun h => hv1 (lt_of_le_of_lt h12 h)
    have hr : (v1 - t) / (m - t) ≤ (v2 - t) / (m - t) :=
      (div_le_div_iff_of_pos_right hpos).mpr (by linarith)
    simp only [calculate_severity, if_neg hv1, if_neg hv2, if_neg h2]
    split_ifs <;> simp [SeverityLevel.value] <;> linarith

/-- Witness for C5: severity at 100 is no greater than at 175 for the flood
rule (150, 200). -/
theorem calculate_severity_monotone_witness :
    ((calculate_severity 100 150 200).getD SeverityLevel.NONE).value ≤
      ((calculate_severity 175 150 200).getD SeverityLevel.NONE).value :=
  calculate_severity_monotone 150 200 100 175 (by norm_num) (by norm_num)

/-- Every operation appends one common suffix to both event lists (empty for
a conditions update). -/
lemma applyOp_appends (env : DisasterEnvironment) (op : StoreOp) :
    ∃ δ, (applyOp env op).active_disasters = env.active_disasters ++ δ ∧
      (applyOp env op).event_history = env.event_history ++ δ := by
  cases op with
  | update draws => exact ⟨[], by simp [applyOp, update_conditions]⟩
  | detect => exact ⟨(detect_disasters env).2, rfl, rfl⟩
  | inject d => exact ⟨[(simulate_random_disaster env d).2], rfl, rfl⟩

/-- A sequence of operations appends one common suffix to both lists. -/
lemma applyOps_appends (env : DisasterEnvironment) (ops : List StoreOp) :
    ∃ δ, (applyOps env ops).active_disasters = env.active_disasters ++ δ ∧
      (applyOps env ops).event_history = env.event_history ++ δ := by
  induction ops generalizing env with
  | nil => exact ⟨[], by simp [applyOps]⟩
  | cons op rest ih =>
    obtain ⟨δ1, h1, h2⟩ := applyOp_appends env op
    obtain ⟨δ2, g1, g2⟩ := ih (applyOp env op)
    refine ⟨δ1 ++ δ2, ?_, ?_⟩ <;>
      simp only [applyOps, List.foldl_cons] at g1 g2 ⊢ <;>
      simp [g1, g2, h1, h2]

/-- A concrete environment used by the witnesses: two locations, fixed
draws, empty event lists. -/
def envW : DisasterEnvironment :=
  mkDisasterEnvironment 2 (fun _ => (0, 0)) (fun _ => ⟨20, 50, 10, 50, 50, 1⟩)

/-- C6: for every operation sequence on the Event Store, both lists are
append-only (every existing element stays in place, so neither list ever
shrinks), and whenever history contains every active event it still does
after the operations. -/
theorem event_store_append_only (env : DisasterEnvironment)
    (ops : List StoreOp)
    (hsub : ∀ e ∈ env.active_disasters, e ∈ env.event_history) :
    (∃ t1, (applyOps env ops).active_disasters
        = env.active_disasters ++ t1) ∧
    (∃ t2, (applyOps env ops).event_history = env.event_history ++ t2) ∧
    ∀ e ∈ (applyOps env ops).active_disasters,
      e ∈ (applyOps env ops).event_history := by
  obtain ⟨δ, h1, h2⟩ := applyOps_appends env ops
  refine ⟨⟨δ, h1⟩, ⟨δ, h2⟩, fun e he => ?_⟩
  rw [h1] at he
  rw [h2]
  rcases List.mem_append.mp he with h | h
  · exact List.mem_append.mpr (Or.inl (hsub e h))
  · exact List.mem_append.mpr (Or.inr h)

/-- Witness for C6 on a concrete store and a detect-then-inject sequence. -/
theorem event_store_append_only_witness :
    (∃ t1, (applyOps envW [StoreOp.detect, StoreOp.inject ⟨0, 0, 0⟩]).active_disasters
        = envW.active_disasters ++ t1) ∧
    (∃ t2, (applyOps envW [StoreOp.detect, StoreOp.inject ⟨0, 0, 0⟩]).event_history
        = envW.event_history ++ t2) ∧
    ∀ e ∈ (applyOps envW [StoreOp.detect, StoreOp.inject ⟨0, 0, 0⟩]).active_disasters,
      e ∈ (applyOps envW [StoreOp.detect, StoreOp.inject ⟨0, 0, 0⟩]).event_history :=
  event_store_append_only envW [StoreOp.detect, StoreOp.inject ⟨0, 0, 0⟩]
    (by simp [envW, mkDisasterEnvironment])

/-- C7 (code behavior): construction does NOT reject invalid configuration.
`DisasterEnvironment(0)` builds a degenerate instance with zero locations
and zero condition records, and `SensorAgent` stores a non-positive
monitoring interval unchanged; neither constructor has a failure path. -/
theorem construction_accepts_degenerate_config :
    (mkDisasterEnvironment 0 (fun _ => (0, 0))
      (fun _ => ⟨20, 50, 10, 50, 50, 1⟩)).locations = [] ∧
    (mkDisasterEnvironment 0 (fun _ => (0, 0))
      (fun _ => ⟨20, 50, 10, 50, 50, 1⟩)).conditions = [] ∧
    (mkSensorAgent "sensor@host" 5 (-1) Option.none false (fun _ => (0, 0))
      (fun _ => ⟨20, 50, 10, 50, 50, 1⟩)).monitoring_interval = -1 := by
  refine ⟨?_, ?_, rfl⟩ <;> simp [mkDisasterEnvironment, generate_locations]

/-- C8: a tick with stimulus mode off, or with 3 or more active events after
detection, never injects a synthetic event; and an injection can only happen
when stimulus mode is on, fewer than 3 events are active, and the per-tick
random draw is below 0.1. -/
theorem injection_gating (env : DisasterEnvironment) (sim : Bool)
    (draws : Nat → Perturbation) (sd : ℚ) (inj : InjectionDraws) :
    ((sim = false ∨
        3 ≤ (detect_disasters (update_conditions env draws)).1.active_disasters.length) →
      (monitoringRun env sim draws sd inj).2.2 = none) ∧
    ((monitoringRun env sim draws sd inj).2.2.isSome →
      sim = true ∧
      (detect_disasters (update_conditions env draws)).1.active_disasters.length < 3 ∧
      sd < 1/10) := by
  simp only [monitoringRun]
  split_ifs with h1 h2
  · refine ⟨fun hc => ?_, fun _ => ⟨h1.1, h1.2, h2⟩⟩
    rcases hc with hf | hge
    · rw [hf] at h1; exact absurd h1.1 (by simp)
    · omega
  · exact ⟨fun _ => rfl, fun hs => by simp at hs⟩
  · exact ⟨fun _ => rfl, fun hs => by simp at hs⟩

/-- Witness for C8: with stimulus mode off, no synthetic event is injected. -/
theorem injection_gating_witness :
    (monitoringRun envW false (fun _ => ⟨0, 0, 0, 0, 0, 0⟩) 0 ⟨0, 0, 0⟩).2.2
      = none :=
  (injection_gating envW false (fun _ => ⟨0, 0, 0, 0, 0, 0⟩) 0 ⟨0, 0, 0⟩).1
    (Or.inl rfl)

/-- C9: from any freshly constructed environment, after any sequence of
operations the active list and the history list are element-wise identical:
both paths append the same events to both lists and nothing ever removes
from either, so the spec's superset relation is in fact equality. -/
theorem active_eq_history_reachable (n : Nat) (cd : Nat → ℚ × ℚ)
    (dr : Nat → InitialDraws) (ops : List StoreOp) :
    (applyOps (mkDisasterEnvironment n cd dr) ops).active_disasters
      = (applyOps (mkDisasterEnvironment n cd dr) ops).event_history := by
  obtain ⟨δ, h1, h2⟩ := applyOps_appends (mkDisasterEnvironment n cd dr) ops
  rw [h1, h2]
  simp [mkDisasterEnvironment]

/-- C10: construction creates exactly `min n 10` locations (the requested
count is silently capped by the 10 built-in names), the created locations
have pairwise distinct names, and each location gets its own conditions
record (keyed by that location and carrying it). -/
theorem generate_locations_capped (n : Nat) (cd : Nat → ℚ × ℚ)
    (dr : Nat → InitialDraws) :
    (mkDisasterEnvironment n cd dr).locations.length = min n 10 ∧
    ((mkDisasterEnvironment n cd dr).locations.map Location.name).Nodup ∧
    (mkDisasterEnvironment n cd dr).conditions.map Prod.fst
      = (mkDisasterEnvironment n cd dr).locations ∧
    ∀ p ∈ (mkDisasterEnvironment n cd dr).conditions,
      p.2.location = p.1 := by
  have hlen : location_names.length = 10 := rfl
  refine ⟨?_, ?_, ?_, ?_⟩
  · simp [mkDisasterEnvironment, generate_locations, hlen]
  · have hmap : (mkDisasterEnvironment n cd dr).locations.map Location.name
        = (List.range (min n 10)).map (fun i => location_names.getD i "") := by
      simp [mkDisasterEnvironment, generate_locations, hlen, List.map_map]
    rw [hmap]
    refine (List.nodup_range _).map_on ?_
    intro i hi j hj heq
    have hi10 : i < 10 := lt_of_lt_of_le (List.mem_range.mp hi) (min_le_right n 10)
    have hj10 : j < 10 := lt_of_lt_of_le (List.mem_range.mp hj) (min_le_right n 10)
    have key : ∀ a < 10, ∀ b < 10,
        location_names.getD a "" = location_names.getD b "" → a = b := by decide
    exact key i hi10 j hj10 heq
  · simp [mkDisasterEnvironment, List.map_map]
    exact List.enum_map_snd _
  · intro p hp
    simp only [mkDisasterEnvironment, List.mem_map] at hp
    obtain ⟨q, hq, rfl⟩ := hp
    rfl

end DisasterEnv
